import Mathlib

/-!
Verification development for the gns3-server orchestration core.

The two source units are embedded shallowly:
* `src/gns3server/controller/gns3vm/hyperv_gns3_vm.py` — the Hyper-V VM
  controller (`HyperVGNS3VM`): `_find_vm`, `_set_vcpus_ram`, `_set_state`
  (with its WMI job-polling loop) and `start`.
* `src/gns3server/modules/vpcs/__init__.py` — the VPCS device registry
  (`VPCS`): console/UDP port allocation, `VPCS_create`, `VPCS_delete`,
  `allocate_udp_port`, the `VPCS_update` settings loop,
  `_check_for_privileged_access` with the `nio_tap` branch of `add_nio`,
  and `settings`.

External effects (WMI calls, OS port probes, `os.getxattr`, `shutil.move`,
`os.makedirs`) are passed in as explicit environment values; machine state
that the Python objects mutate is threaded as explicit record state.
-/

set_option maxHeartbeats 1000000

namespace GNS3

/-! ### Hyper-V controller constants (`hyperv_gns3_vm.py`, lines 33-39) -/

/-- `HyperVGNS3VM._HYPERV_VM_STATE_ENABLED`. -/
def HYPERV_VM_STATE_ENABLED : Nat := 2

/-- `HyperVGNS3VM._HYPERV_VM_STATE_DISABLED`. -/
def HYPERV_VM_STATE_DISABLED : Nat := 3

/-- `HyperVGNS3VM._HYPERV_VM_STATE_PAUSED`. -/
def HYPERV_VM_STATE_PAUSED : Nat := 9

/-- `HyperVGNS3VM._WMI_JOB_STATUS_STARTED`. -/
def WMI_JOB_STATUS_STARTED : Nat := 4096

/-- `HyperVGNS3VM._WMI_JOB_STATE_RUNNING`. -/
def WMI_JOB_STATE_RUNNING : Nat := 4

/-- `HyperVGNS3VM._WMI_JOB_STATE_COMPLETED`. -/
def WMI_JOB_STATE_COMPLETED : Nat := 7

/-- The sleep between two consecutive job status reads in
`HyperVGNS3VM._set_state`: `asyncio.sleep(0.1)`, i.e. 100 milliseconds. -/
def pollIntervalMs : Nat := 100

/-- One observation of the WMI job object: the result of one
`self._get_wmi_obj(job_path)` call, exposing `JobState` and
`ErrorSummaryDescription`. -/
structure JobRead where
  jobState : Nat
  errorSummaryDescription : String
deriving DecidableEq

/-- The job-polling loop of `HyperVGNS3VM._set_state` (lines 171-176).
`reads` lists the successive results of `_get_wmi_obj(job_path)`; the first
read happens before the loop, and each further read follows a
`pollIntervalMs` sleep.  The result is the number of reads performed
together with the outcome (`Except.ok` when the terminal `JobState` is
`_WMI_JOB_STATE_COMPLETED`, otherwise an error carrying the job's
`ErrorSummaryDescription`); `none` models the source looping beyond the
provided reads because every one of them still reported the running state. -/
def pollJob : List JobRead → Option (Nat × Except String Unit)
  | [] => none
  | r :: rest =>
    if r.jobState = WMI_JOB_STATE_RUNNING then
      (pollJob rest).map (fun p => (p.1 + 1, p.2))
    else if r.jobState = WMI_JOB_STATE_COMPLETED then some (1, Except.ok ())
    else some (1, Except.error r.errorSummaryDescription)

/-- `HyperVGNS3VM._set_state` (lines 163-178).  `ret` is the second component
of `self._vm.RequestStateChange(state)`; `reads` models the job observations
used when a pending job was returned.  The immediate branch mirrors the
source condition `elif ret != 0 or ret != 32775` verbatim. -/
def set_state (state ret : Nat) (reads : List JobRead) : Option (Except String Unit) :=
  if ret = WMI_JOB_STATUS_STARTED then
    match pollJob reads with
    | none => none
    | some p => some p.2
  else if ret ≠ 0 ∨ ret ≠ 32775 then
    some (Except.error ("Failed to change state to " ++ toString state))
  else some (Except.ok ())

/-- `HyperVGNS3VM._find_vm` (lines 86-98).  The WMI query
`Msvm_ComputerSystem(ElementName=vm_name)` returns exactly the machines whose
element name matches, modelled as filtering the backend's list of
(element name, handle) pairs.  Zero matches yield `None`, more than one
raises `GNS3VMError("Duplicate VM name found ...")`, exactly one is
returned. -/
def find_vm (vms : List (String × Nat)) (vm_name : String) :
    Except String (Option (String × Nat)) :=
  let found := vms.filter (fun v => v.1 == vm_name)
  if found.length = 0 then Except.ok none
  else if 1 < found.length then
    Except.error ("Duplicate VM name found for " ++ vm_name)
  else Except.ok found.head?

/-- External observations that `HyperVGNS3VM.start` depends on:
whether `self._conn` is already set, whether `_connect()` succeeds,
the `_is_running()` observation (`EnabledState == 2`), the host core count
`psutil.cpu_count(logical=False)`, the configured vCPU count, whether the
`ModifyResourceSettings` calls succeed, and the `RequestStateChange`
result (`ret` plus subsequent job reads). -/
structure HyperVEnv where
  alreadyConnected : Bool
  connectOk : Bool
  vmEnabled : Bool
  availableVcpus : Nat
  vcpus : Nat
  modifyOk : Bool
  ret : Nat
  reads : List JobRead

/-- Outcome of `HyperVGNS3VM.start`: the raised error message (if any) and
the value of the mirrored `self.running` flag after the call. -/
structure StartResult where
  err : Option String
  running : Bool
deriving DecidableEq

/-- `HyperVGNS3VM._set_vcpus_ram` (lines 109-139): rejects a vCPU count above
the physical core count before any mutation; any failure of the WMI
resource-setting calls is wrapped into a `GNS3VMError`. -/
def set_vcpus_ram (env : HyperVEnv) : Option String :=
  if env.availableVcpus < env.vcpus then
    some ("You have allocated too many vCPUs for the GNS3 VM!")
  else if ¬ env.modifyOk then some ("Could not set vCPUs and RAM")
  else none

/-- `HyperVGNS3VM.start` (lines 180-205): lazily connect, and when the VM is
not already observed enabled, configure resources and drive
`_set_state(_HYPERV_VM_STATE_ENABLED)`, wrapping its error; `self.running`
is assigned `True` only on the fall-through after all of that succeeded.
Exceptions leave the `running` flag at its previous value. -/
def hyperv_start (env : HyperVEnv) (running : Bool) : Option StartResult :=
  if ¬ env.alreadyConnected ∧ ¬ env.connectOk then
    some ⟨some ("connect failed"), running⟩
  else if ¬ env.vmEnabled then
    match set_vcpus_ram env with
    | some e => some ⟨some e, running⟩
    | none =>
      match set_state HYPERV_VM_STATE_ENABLED env.ret env.reads with
      | none => none
      | some (Except.error e) =>
        some ⟨some ("Failed to start the GNS3 VM: " ++ e), running⟩
      | some (Except.ok _) => some ⟨none, true⟩
  else some ⟨none, true⟩

/-! ### VPCS module (`modules/vpcs/__init__.py`) -/

/-- `VPCS._check_for_privileged_access` (lines 552-574).  `euid` is
`os.geteuid()`; `xattrNames` is `os.listxattr(self._VPCS)`; `capsWord1` is
the second 32-bit word of the unpacked `security.capability` attribute, or
`none` when `os.getxattr`/`struct.unpack` raises (that exception is caught,
logged, and the function returns — i.e. the check passes).  The result is
`true` when the check passes and `false` when `VPCSError` is raised. -/
def check_for_privileged_access (euid : Nat) (xattrNames : List String)
    (capsWord1 : Option Nat) : Bool :=
  if euid = 0 then true
  else if "security.capability" ∈ xattrNames then
    match capsWord1 with
    | some w => decide (w &&& (1 <<< 13) ≠ 0)
    | none => true
  else false

/-- The NIO variants constructed by `VPCS.add_nio` (lines 612-621). -/
inductive NioEndpoint where
  | udp (lport : Nat) (rhost : String) (rport : Nat)
  | tap (device : String)
deriving DecidableEq

/-- The `nio_tap` branch of `VPCS.add_nio` (lines 618-621): the privileged
access check runs before `NIO_TAP` is constructed, and its `VPCSError` is
reported to the caller. -/
def add_nio_tap (euid : Nat) (xattrNames : List String) (capsWord1 : Option Nat)
    (device : String) : Except String NioEndpoint :=
  if check_for_privileged_access euid xattrNames capsWord1 then
    Except.ok (NioEndpoint.tap device)
  else Except.error ("no privileged access to " ++ device)

/-- Registry-visible state of one `VPCSDevice`: its console port and working
directory (the fields `VPCS.settings` repoints). -/
structure VInst where
  console : Nat
  workingDir : String
deriving DecidableEq

/-- The mutable state of the `VPCS` module object (`__init__`, lines 90-102):
the instance mapping, the two port ranges with their rolling cursors, and
the path bookkeeping. -/
structure VPCSState where
  vpcsPath : String
  projectsDir : String
  workingDir : String
  instances : List (Nat × VInst)
  consoleStart : Nat
  consoleEnd : Nat
  currentConsolePort : Nat
  udpStart : Nat
  udpEnd : Nat
  currentUdpPort : Nat
deriving DecidableEq

/-- Modelled from the spec: `find_unused_port` lives in
`gns3server/modules/attic.py`, which is not under `src/`.  Per the spec
(§4.1) it scans candidate ports from `first` to `last` inclusive and returns
the first one not currently bound by the operating system (the `busy`
probe), failing when no eligible port exists in the range. -/
def find_unused_port (busy : Nat → Bool) (first last : Nat) : Option Nat :=
  (List.range' first (last + 1 - first)).find? (fun p => !busy p)

/-- The console-port allocation step of `VPCS.VPCS_create` (lines 296-303):
wrap the cursor to the range start when it exceeds the range end, scan from
the (possibly wrapped) cursor, and on success advance the cursor by one from
the scan start.  No allocated-port set is consulted or updated. -/
def allocConsole (busy : Nat → Bool) (s : VPCSState) : Option Nat × VPCSState :=
  let cur := if s.consoleEnd < s.currentConsolePort then s.consoleStart
             else s.currentConsolePort
  match find_unused_port busy cur s.consoleEnd with
  | some p => (some p, { s with currentConsolePort := cur + 1 })
  | none => (none, { s with currentConsolePort := cur })

/-- The UDP-port allocation step of `VPCS.allocate_udp_port` (lines 530-537):
identical to the console step except that the reset condition is
`self._current_udp_port >= self._udp_end_port_range` (`>=`, not `>`). -/
def allocUdp (busy : Nat → Bool) (s : VPCSState) : Option Nat × VPCSState :=
  let cur := if s.udpEnd ≤ s.currentUdpPort then s.udpStart
             else s.currentUdpPort
  match find_unused_port busy cur s.udpEnd with
  | some p => (some p, { s with currentUdpPort := cur + 1 })
  | none => (none, { s with currentUdpPort := cur })

/-- `n` consecutive console allocations with no interleaved release,
collecting the returned ports. -/
def allocConsoleN (busy : Nat → Bool) : Nat → VPCSState → List (Option Nat) × VPCSState
  | 0, s => ([], s)
  | n + 1, s =>
    let step := allocConsole busy s
    let rest := allocConsoleN busy n step.2
    (step.1 :: rest.1, rest.2)

/-- `VPCS.VPCS_create` (lines 259-314) restricted to registry bookkeeping:
`mkdirOk` models `os.makedirs(self._working_dir)` (a `FileExistsError` is
ignored, any other `OSError` becomes a `VPCSError`); then the console
allocation step runs, and only on success is the new instance registered in
`self._VPCS_instances`. -/
def VPCS_create (busy : Nat → Bool) (mkdirOk : Bool) (newId : Nat)
    (s : VPCSState) : Option Nat × VPCSState :=
  if ¬ mkdirOk then (none, s)
  else
    match allocConsole busy s with
    | (some p, s') =>
      (some p, { s' with instances := (newId, ⟨p, s'.workingDir⟩) :: s'.instances })
    | (none, s') => (none, s')

/-- `VPCS.allocate_udp_port` (lines 503-550): `get_VPCS_instance` rejects an
unknown id before anything else runs; otherwise the UDP allocation step
executes. -/
def allocate_udp_port (busy : Nat → Bool) (reqId : Nat) (s : VPCSState) :
    Option Nat × VPCSState :=
  match s.instances.find? (fun p => p.1 == reqId) with
  | none => (none, s)
  | some _ => allocUdp busy s

/-- `VPCS.VPCS_delete` (lines 316-346) restricted to registry bookkeeping:
an unknown id is rejected by `get_VPCS_instance` with no mutation; otherwise
the instance is removed from the mapping. -/
def VPCS_delete (reqId : Nat) (s : VPCSState) : Option Bool × VPCSState :=
  match s.instances.find? (fun p => p.1 == reqId) with
  | none => (none, s)
  | some _ =>
    (some true, { s with instances := s.instances.filter (fun p => !(p.1 == reqId)) })

/-- `getattr`/`hasattr` over an instance's settable attributes, modelled as
an association list: `some` exactly when the attribute exists. -/
def getattr {V : Type} (attrs : List (String × V)) (n : String) : Option V :=
  (attrs.find? (fun p => p.1 == n)).map (fun p => p.2)

/-- `setattr` over the attribute map: overwrites the value of an existing
attribute, leaves everything else in place. -/
def setattr {V : Type} (attrs : List (String × V)) (n : String) (v : V) :
    List (String × V) :=
  attrs.map (fun p => if p.1 == n then (p.1, v) else p)

/-- The settings-update loop of `VPCS.VPCS_update` (lines 396-406): for each
request item, if the instance exposes the attribute and the current value
differs, `setattr` is applied and `response[name] = value` recorded;
otherwise the item is skipped silently.  Returns (response, final
attributes). -/
def VPCS_update_fields {V : Type} [DecidableEq V] :
    List (String × V) → List (String × V) → List (String × V) × List (String × V)
  | [], attrs => ([], attrs)
  | (n, v) :: rest, attrs =>
    match getattr attrs n with
    | some old =>
      if old = v then VPCS_update_fields rest attrs
      else
        let out := VPCS_update_fields rest (setattr attrs n v)
        ((n, v) :: out.1, out.2)
    | none => VPCS_update_fields rest attrs

/-- A JSON request value for `VPCS.settings`: a string or a number. -/
inductive RVal where
  | str (s : String)
  | num (n : Nat)
deriving DecidableEq

/-- Python truthiness of a request value (`if ... and request["VPCS"]:`). -/
def rtruthy : RVal → Bool
  | RVal.str s => !(s == "")
  | RVal.num n => !(n == 0)

/-- Read a request value as a string. -/
def asStr : RVal → String
  | RVal.str s => s
  | RVal.num n => toString n

/-- Read a request value as a number. -/
def asNum : RVal → Nat
  | RVal.str _ => 0
  | RVal.num n => n

/-- Dictionary lookup on the JSON request (`"key" in request` /
`request["key"]`). -/
def lookupR (req : List (String × RVal)) (k : String) : Option RVal :=
  (req.find? (fun p => p.1 == k)).map (fun p => p.2)

/-- Filesystem observations `VPCS.settings` depends on:
`os.path.isdir(new_working_dir)` and whether `shutil.move` succeeds. -/
structure SettingsEnv where
  isdirNew : Bool
  moveOk : Bool

/-- Outcome of `VPCS.settings`: an uncaught `KeyError`, the silent early
return taken when `shutil.move` fails (updates so far kept, the rest
skipped), or normal completion with the updated module state. -/
inductive SettingsOutcome where
  | keyError (key : String)
  | moveFailed (st : VPCSState)
  | ok (st : VPCSState)
deriving DecidableEq

/-- The port-range updates of `VPCS.settings` (lines 234-240): each pair is
applied only when both its keys are present. -/
def applyRanges (req : List (String × RVal)) (st : VPCSState) : VPCSState :=
  let st1 :=
    match lookupR req "console_start_port_range", lookupR req "console_end_port_range" with
    | some a, some b => { st with consoleStart := asNum a, consoleEnd := asNum b }
    | _, _ => st
  match lookupR req "udp_start_port_range", lookupR req "udp_end_port_range" with
  | some a, some b => { st1 with udpStart := asNum a, udpEnd := asNum b }
  | _, _ => st1

/-- The working-directory update of `VPCS.settings` (lines 227-232): when the
directory actually changes, every registered instance is repointed to it. -/
def applyWorkingDir (nwd : String) (st : VPCSState) : VPCSState :=
  if st.workingDir ≠ nwd then
    { st with
      workingDir := nwd,
      instances := st.instances.map (fun p => (p.1, { p.2 with workingDir := nwd })) }
  else st

/-- `VPCS.settings` (lines 187-242).  The `"VPCS"` path is applied first;
then the new working directory is computed: from `request["working_dir"]`
when present, otherwise from `request["project_name"]` — an access that
raises an uncaught `KeyError` when that key is missing too.  In the remote
branch, when the directory changes away from the projects directory and the
target does not exist, `shutil.move` is attempted and a failure causes a
silent early return. -/
def VPCS_settings (env : SettingsEnv) (req : List (String × RVal))
    (st0 : VPCSState) : SettingsOutcome :=
  let st1 :=
    match lookupR req "VPCS" with
    | some v => if rtruthy v then { st0 with vpcsPath := asStr v } else st0
    | none => st0
  match lookupR req "working_dir" with
  | some wd => SettingsOutcome.ok (applyRanges req (applyWorkingDir (asStr wd) st1))
  | none =>
    match lookupR req "project_name" with
    | none => SettingsOutcome.keyError ("project_name")
    | some pn =>
      let nwd := st1.projectsDir ++ "/" ++ asStr pn ++ ".gns3"
      if st1.projectsDir ≠ st1.workingDir ∧ st1.workingDir ≠ nwd
          ∧ ¬ env.isdirNew ∧ ¬ env.moveOk then
        SettingsOutcome.moveFailed st1
      else SettingsOutcome.ok (applyRanges req (applyWorkingDir nwd st1))

/-- A module state with the default port ranges of `VPCS.__init__`
(lines 91-97), used to instantiate the theorems below. -/
def exState : VPCSState :=
  { vpcsPath := "/usr/local/bin/vpcs",
    projectsDir := "/projects",
    workingDir := "/projects",
    instances := [],
    consoleStart := 4001,
    consoleEnd := 4512,
    currentConsolePort := 4001,
    udpStart := 30001,
    udpEnd := 40001,
    currentUdpPort := 30001 }

/-- The module state with the console pool configured to the small range
[4001, 4003] (ranges are caller-configurable via `VPCS.settings`). -/
def smallConsoleState : VPCSState := { exState with consoleEnd := 4003 }

/-- The module state with the UDP pool configured to [30001, 30002] and the
cursor sitting exactly at the range end (reached, not exceeded). -/
def udpEdgeState : VPCSState :=
  { exState with udpEnd := 30002, currentUdpPort := 30002 }

/-- A job read reporting the running state. -/
def runRead : JobRead :=
  { jobState := WMI_JOB_STATE_RUNNING, errorSummaryDescription := "" }

/-- A job read reporting the completed state. -/
def doneRead : JobRead :=
  { jobState := WMI_JOB_STATE_COMPLETED, errorSummaryDescription := "" }

/-! ### Helper lemmas about port scanning -/

/-- When no port is OS-busy, the scan returns its first candidate. -/
theorem find_unused_port_no_busy (first last : Nat) (h : first ≤ last) :
    find_unused_port (fun _ => false) first last = some first := by
  unfold find_unused_port
  have h1 : last + 1 - first = (last - first) + 1 := by omega
  rw [h1, List.range'_succ]
  exact List.find?_cons_of_pos _ rfl

/-- Any port the scan returns lies between the scan start and the range
end. -/
theorem find_unused_port_bounds {busy : Nat → Bool} {first last p : Nat}
    (h : find_unused_port busy first last = some p) : first ≤ p ∧ p ≤ last := by
  have hm := List.mem_of_find?_eq_some h
  rw [List.mem_range'_1] at hm
  omega

/-- With no port OS-busy and no wraparound, `n` console allocations return
precisely the `n` consecutive ports from the cursor. -/
theorem allocConsoleN_no_busy (n : Nat) :
    ∀ s : VPCSState, s.currentConsolePort + n ≤ s.consoleEnd + 1 →
      (allocConsoleN (fun _ => false) n s).1
        = (List.range' s.currentConsolePort n).map some := by
  induction n with
  | zero => intro s _; rfl
  | succ n ih =>
    intro s h
    have hle : ¬ s.consoleEnd < s.currentConsolePort := by omega
    have hcur : s.currentConsolePort ≤ s.consoleEnd := by omega
    unfold allocConsoleN allocConsole
    simp only [if_neg hle]
    rw [find_unused_port_no_busy _ _ hcur]
    have ihs := ih { s with currentConsolePort := s.currentConsolePort + 1 }
      (by simp; omega)
    simp only at ihs
    rw [List.range'_succ]
    simp [ihs]

/-! ### Claim C3 -/

/-- Claim C3 counterexample: on the console pool configured to [4001, 4003]
with the cursor at the range start and no port bound by the OS, four
allocations with no interleaved release return 4001, 4002, 4003 and then
4001 again — the same port is returned twice while still held, because the
pool keeps no allocated-port set and the cursor wraps after the range end. -/
theorem console_alloc_wraparound_duplicate :
    (allocConsoleN (fun _ => false) 4 smallConsoleState).1
        = [some 4001, some 4002, some 4003, some 4001]
    ∧ ¬ (allocConsoleN (fun _ => false) 4 smallConsoleState).1.Nodup := by
  constructor
  · decide
  · decide

/-- Claim C3 (amended): when the cursor starts at the range start, no port is
OS-busy, and the sequence is no longer than the range, the `N` returned
console ports are consecutive, pairwise distinct, and within the configured
[start, end]; beyond the range length (or with OS-busy ports) the pool can
re-issue a held port, since no allocated set is tracked. -/
theorem console_alloc_distinct_within_range (n : Nat) (s : VPCSState)
    (hc : s.currentConsolePort = s.consoleStart)
    (hn : s.consoleStart + n ≤ s.consoleEnd + 1) :
    (allocConsoleN (fun _ => false) n s).1 = (List.range' s.consoleStart n).map some
    ∧ (List.range' s.consoleStart n).Nodup
    ∧ ∀ p ∈ List.range' s.consoleStart n, s.consoleStart ≤ p ∧ p ≤ s.consoleEnd := by
  refine ⟨?_, List.nodup_range' _ _, ?_⟩
  · rw [← hc]
    exact allocConsoleN_no_busy n s (by omega)
  · intro p hp
    rw [List.mem_range'_1] at hp
    omega

/-- Witness for the amended C3 theorem at `n = 3` on the [4001, 4003] pool. -/
theorem console_alloc_distinct_within_range_witness :
    (allocConsoleN (fun _ => false) 3 smallConsoleState).1
        = (List.range' smallConsoleState.consoleStart 3).map some
    ∧ (List.range' smallConsoleState.consoleStart 3).Nodup
    ∧ ∀ p ∈ List.range' smallConsoleState.consoleStart 3,
        smallConsoleState.consoleStart ≤ p ∧ p ≤ smallConsoleState.consoleEnd :=
  console_alloc_distinct_within_range 3 smallConsoleState (by decide) (by decide)

/-! ### Claim C4 -/

/-- Claim C4 counterexample.  First part: on the UDP pool configured to
[30001, 30002] with the cursor equal to the range end (reached, not
exceeded), the allocation returns 30001 — below the cursor — so the cursor
was reset to the range start without having exceeded the end (the UDP reset
condition is `>=`, not `>`).  Second part: on the console pool with port
4001 OS-busy, the allocation returns 4002 but leaves the cursor at 4002,
i.e. the cursor is not advanced past the returned port. -/
theorem udp_cursor_reset_at_end_not_exceeded :
    ((allocUdp (fun _ => false) udpEdgeState).1 = some 30001
      ∧ ¬ udpEdgeState.udpEnd < udpEdgeState.currentUdpPort
      ∧ 30001 < udpEdgeState.currentUdpPort)
    ∧ ((allocConsole (fun p => p == 4001) smallConsoleState).1 = some 4002
      ∧ (allocConsole (fun p => p == 4001) smallConsoleState).2.currentConsolePort = 4002
      ∧ ¬ 4002 < (allocConsole (fun p => p == 4001) smallConsoleState).2.currentConsolePort) := by
  constructor
  · exact ⟨by decide, by decide, by decide⟩
  · exact ⟨by decide, by decide, by decide⟩

/-- Claim C4 (amended): each allocation scans from the cursor after a
reset-to-start that occurs when the cursor exceeds the range end for the
console pool but already when it reaches the end for the UDP pool; any
returned port lies between that scan start and the range end, and on success
the cursor becomes scan start + 1 — which is past the returned port only
when the scan's first candidate was free. -/
theorem alloc_cursor_policy :
    ∀ (busy : Nat → Bool) (s : VPCSState),
      (∀ p, (allocConsole busy s).1 = some p →
        (if s.consoleEnd < s.currentConsolePort then s.consoleStart
         else s.currentConsolePort) ≤ p
        ∧ p ≤ s.consoleEnd
        ∧ (allocConsole busy s).2.currentConsolePort
            = (if s.consoleEnd < s.currentConsolePort then s.consoleStart
               else s.currentConsolePort) + 1)
      ∧ (∀ p, (allocUdp busy s).1 = some p →
        (if s.udpEnd ≤ s.currentUdpPort then s.udpStart
         else s.currentUdpPort) ≤ p
        ∧ p ≤ s.udpEnd
        ∧ (allocUdp busy s).2.currentUdpPort
            = (if s.udpEnd ≤ s.currentUdpPort then s.udpStart
               else s.currentUdpPort) + 1) := by
  intro busy s
  constructor
  · intro p hp
    unfold allocConsole at hp ⊢
    rcases hfp : find_unused_port busy
        (if s.consoleEnd < s.currentConsolePort then s.consoleStart
         else s.currentConsolePort) s.consoleEnd with _ | q
    · simp only [hfp] at hp
      exact Option.noConfusion hp
    · simp only [hfp, Option.some.injEq] at hp ⊢
      obtain ⟨h1, h2⟩ := find_unused_port_bounds hfp
      subst hp
      exact ⟨h1, h2, trivial⟩
  · intro p hp
    unfold allocUdp at hp ⊢
    rcases hfp : find_unused_port busy
        (if s.udpEnd ≤ s.currentUdpPort then s.udpStart
         else s.currentUdpPort) s.udpEnd with _ | q
    · simp only [hfp] at hp
      exact Option.noConfusion hp
    · simp only [hfp, Option.some.injEq] at hp ⊢
      obtain ⟨h1, h2⟩ := find_unused_port_bounds hfp
      subst hp
      exact ⟨h1, h2, trivial⟩

/-- Witness for the amended C4 theorem on both pools of the default state. -/
theorem alloc_cursor_policy_witness :
    ((if exState.consoleEnd < exState.currentConsolePort then exState.consoleStart
      else exState.currentConsolePort) ≤ 4001
      ∧ 4001 ≤ exState.consoleEnd
      ∧ (allocConsole (fun _ => false) exState).2.currentConsolePort
          = (if exState.consoleEnd < exState.currentConsolePort then exState.consoleStart
             else exState.currentConsolePort) + 1)
    ∧ ((if exState.udpEnd ≤ exState.currentUdpPort then exState.udpStart
        else exState.currentUdpPort) ≤ 30001
        ∧ 30001 ≤ exState.udpEnd
        ∧ (allocUdp (fun _ => false) exState).2.currentUdpPort
            = (if exState.udpEnd ≤ exState.currentUdpPort then exState.udpStart
               else exState.currentUdpPort) + 1) :=
  ⟨(alloc_cursor_policy (fun _ => false) exState).1 4001 (by decide),
   (alloc_cursor_policy (fun _ => false) exState).2 30001 (by decide)⟩

/-! ### Claim C7 -/

/-- The cursor wrap performed at the top of a console allocation is
idempotent: performing it eagerly and then allocating gives the same result
as allocating from the original state. -/
theorem allocConsole_wrap_invariant (b2 : Nat → Bool) (s : VPCSState)
    (h : s.consoleStart ≤ s.consoleEnd) :
    allocConsole b2
        { s with currentConsolePort :=
            if s.consoleEnd < s.currentConsolePort then s.consoleStart
            else s.currentConsolePort }
      = allocConsole b2 s := by
  unfold allocConsole
  dsimp only
  by_cases hw : s.consoleEnd < s.currentConsolePort
  · simp only [if_pos hw, if_neg (show ¬ s.consoleEnd < s.consoleStart by omega)]
  · simp only [if_neg hw]

/-- Claim C7 (confirmed): when `VPCS_create` fails (working-directory
creation error or console-port allocation failure), the instance mapping and
the UDP cursor are untouched, the console cursor is not advanced (it is at
most wrapped to the range start, a write the next allocation would perform
anyway, so allocation behaviour from the resulting state is identical to the
original), and no port or instance slot is recorded anywhere; and any
operation on an unknown instance id (`allocate_udp_port`, `VPCS_delete`) is
rejected by `get_VPCS_instance` with the state fully unchanged. -/
theorem create_failure_no_side_effects :
    (∀ (busy : Nat → Bool) (mkdirOk : Bool) (newId : Nat) (s : VPCSState),
      s.consoleStart ≤ s.consoleEnd →
      (VPCS_create busy mkdirOk newId s).1 = none →
        (VPCS_create busy mkdirOk newId s).2.instances = s.instances
        ∧ (VPCS_create busy mkdirOk newId s).2.currentUdpPort = s.currentUdpPort
        ∧ (VPCS_create busy mkdirOk newId s).2.currentConsolePort ≤ s.currentConsolePort
        ∧ ∀ b2 : Nat → Bool,
            allocConsole b2 (VPCS_create busy mkdirOk newId s).2 = allocConsole b2 s)
    ∧ (∀ (busy : Nat → Bool) (reqId : Nat) (s : VPCSState),
        s.instances.find? (fun p => p.1 == reqId) = none →
          allocate_udp_port busy reqId s = (none, s)
          ∧ VPCS_delete reqId s = (none, s)) := by
  constructor
  · intro busy mkdirOk newId s hrange hfail
    cases mkdirOk with
    | false =>
      exact ⟨rfl, rfl, Nat.le_refl _, fun b2 => rfl⟩
    | true =>
      rcases hfp : find_unused_port busy
          (if s.consoleEnd < s.currentConsolePort then s.consoleStart
           else s.currentConsolePort) s.consoleEnd with _ | q
      · have hstep : VPCS_create busy true newId s
            = (none, { s with currentConsolePort :=
                if s.consoleEnd < s.currentConsolePort then s.consoleStart
                else s.currentConsolePort }) := by
          unfold VPCS_create allocConsole
          simp [hfp]
        rw [hstep]
        refine ⟨rfl, rfl, ?_, ?_⟩
        · show (if s.consoleEnd < s.currentConsolePort then s.consoleStart
                else s.currentConsolePort) ≤ s.currentConsolePort
          split <;> omega
        · intro b2
          exact allocConsole_wrap_invariant b2 s hrange
      · have hsome : (VPCS_create busy true newId s).1 = some q := by
          unfold VPCS_create allocConsole
          simp [hfp]
        rw [hsome] at hfail
        exact Option.noConfusion hfail
  · intro busy reqId s h
    unfold allocate_udp_port VPCS_delete
    rw [h]
    exact ⟨rfl, rfl⟩

/-- Witness for C7: with every port OS-busy the creation on the [4001, 4003]
pool fails and leaves the state unobserved, and operations on the unknown
id 7 are rejected unchanged. -/
theorem create_failure_no_side_effects_witness :
    ((VPCS_create (fun _ => true) true 1 smallConsoleState).2.instances
        = smallConsoleState.instances
      ∧ (VPCS_create (fun _ => true) true 1 smallConsoleState).2.currentUdpPort
          = smallConsoleState.currentUdpPort
      ∧ (VPCS_create (fun _ => true) true 1 smallConsoleState).2.currentConsolePort
          ≤ smallConsoleState.currentConsolePort
      ∧ ∀ b2 : Nat → Bool,
          allocConsole b2 (VPCS_create (fun _ => true) true 1 smallConsoleState).2
            = allocConsole b2 smallConsoleState)
    ∧ (allocate_udp_port (fun _ => true) 7 smallConsoleState = (none, smallConsoleState)
      ∧ VPCS_delete 7 smallConsoleState = (none, smallConsoleState)) :=
  ⟨create_failure_no_side_effects.1 (fun _ => true) true 1 smallConsoleState
      (by decide) (by decide),
   create_failure_no_side_effects.2 (fun _ => true) 7 smallConsoleState (by decide)⟩

/-! ### Claim C2 -/

/-- Claim C2 (code bug): the source guard `elif ret != 0 or ret != 32775` is
a tautology, so even the immediate success codes 0 and 32775 raise
`GNS3VMError("Failed to change state to ...")` instead of returning
successfully; the clearly intended guard was `and`. -/
theorem set_state_immediate_success_codes_raise :
    set_state 2 0 [] = some (Except.error ("Failed to change state to " ++ toString 2))
    ∧ set_state 2 32775 []
        = some (Except.error ("Failed to change state to " ++ toString 2))
    ∧ set_state 3 0 [] = some (Except.error ("Failed to change state to " ++ toString 3))
    ∧ set_state 9 32775 []
        = some (Except.error ("Failed to change state to " ++ toString 9)) :=
  ⟨rfl, rfl, rfl, rfl⟩

/-! ### Claim C5 -/

/-- Claim C5 (confirmed): when `RequestStateChange` returns the pending-job
code, `_set_state` re-reads the job on a fixed 100 ms interval until it
leaves the running state; a job that reports running for `k` reads and then
terminates is settled after exactly `k + 1` status reads, succeeding if and
only if the terminal state is completed and otherwise raising an error
carrying the job's own `ErrorSummaryDescription`. -/
theorem set_state_job_polling (pre : List JobRead) (t : JobRead)
    (rest : List JobRead) (state : Nat)
    (hpre : ∀ r ∈ pre, r.jobState = WMI_JOB_STATE_RUNNING)
    (ht : t.jobState ≠ WMI_JOB_STATE_RUNNING) :
    pollJob (pre ++ t :: rest)
        = some (pre.length + 1,
            if t.jobState = WMI_JOB_STATE_COMPLETED then Except.ok ()
            else Except.error t.errorSummaryDescription)
    ∧ set_state state WMI_JOB_STATUS_STARTED (pre ++ t :: rest)
        = some (if t.jobState = WMI_JOB_STATE_COMPLETED then Except.ok ()
                else Except.error t.errorSummaryDescription)
    ∧ pollIntervalMs = 100 := by
  have hp : pollJob (pre ++ t :: rest)
      = some (pre.length + 1,
          if t.jobState = WMI_JOB_STATE_COMPLETED then Except.ok ()
          else Except.error t.errorSummaryDescription) := by
    induction pre with
    | nil =>
      rw [List.nil_append]
      unfold pollJob
      rw [if_neg ht]
      split <;> rfl
    | cons r rs ih =>
      have hr : r.jobState = WMI_JOB_STATE_RUNNING := hpre r (by simp)
      have ihs := ih (fun x hx => hpre x (by simp [hx]))
      rw [List.cons_append]
      unfold pollJob
      rw [if_pos hr, ihs]
      simp [List.length_cons]
  refine ⟨hp, ?_, rfl⟩
  unfold set_state
  rw [if_pos rfl, hp]

/-- Witness for C5: a job that reports running for 3 polls and then
completed makes the transition succeed after exactly 4 status reads. -/
theorem set_state_job_polling_witness :
    pollJob (List.replicate 3 runRead ++ doneRead :: [])
        = some ((List.replicate 3 runRead).length + 1,
            if doneRead.jobState = WMI_JOB_STATE_COMPLETED then Except.ok ()
            else Except.error doneRead.errorSummaryDescription)
    ∧ set_state HYPERV_VM_STATE_ENABLED WMI_JOB_STATUS_STARTED
          (List.replicate 3 runRead ++ doneRead :: [])
        = some (if doneRead.jobState = WMI_JOB_STATE_COMPLETED then Except.ok ()
                else Except.error doneRead.errorSummaryDescription)
    ∧ pollIntervalMs = 100 :=
  set_state_job_polling (List.replicate 3 runRead) doneRead [] HYPERV_VM_STATE_ENABLED
    (by decide) (by decide)

/-! ### Claim C8 -/

/-- Claim C8 (confirmed): `_find_vm` returns the unique matching VM when
exactly one carries the queried name, `None` when none does, and raises the
duplicate-name error whenever more than one VM matches — it never picks one
of the duplicates. -/
theorem find_vm_spec :
    ∀ (vms : List (String × Nat)) (name : String),
      ((vms.filter (fun v => v.1 == name)).length = 0 →
          find_vm vms name = Except.ok none)
      ∧ (∀ h, vms.filter (fun v => v.1 == name) = [h] →
          find_vm vms name = Except.ok (some h))
      ∧ (1 < (vms.filter (fun v => v.1 == name)).length →
          find_vm vms name = Except.error ("Duplicate VM name found for " ++ name)) := by
  intro vms name
  refine ⟨fun h0 => ?_, fun h hh => ?_, fun h2 => ?_⟩
  · unfold find_vm
    rw [if_pos h0]
  · unfold find_vm
    rw [hh]
    rfl
  · unfold find_vm
    rw [if_neg (by omega), if_pos h2]

/-- Witness for C8: a backend reporting two VMs named "GNS3 VM" makes
`_find_vm` fail with the duplicate-name error. -/
theorem find_vm_spec_witness :
    find_vm [("GNS3 VM", 1), ("GNS3 VM", 2)] "GNS3 VM"
      = Except.error ("Duplicate VM name found for " ++ "GNS3 VM") :=
  (find_vm_spec [("GNS3 VM", 1), ("GNS3 VM", 2)] "GNS3 VM").2.2 (by decide)

/-! ### Claim C6 -/

/-- Claim C6 (confirmed): `start` sets the mirrored `running` flag to true
only after the transition to the enabled state has been confirmed — either
the VM was already observed enabled, or `_set_state(ENABLED)` completed
successfully — never on mere request acceptance; and whenever `start` raises,
the `running` flag is left at its previous value. -/
theorem hyperv_start_running_flag :
    ∀ (env : HyperVEnv) (running : Bool) (r : StartResult),
      hyperv_start env running = some r →
        ((running = false ∧ r.running = true) →
          (env.vmEnabled = true
            ∨ set_state HYPERV_VM_STATE_ENABLED env.ret env.reads
                = some (Except.ok ())))
        ∧ (r.err.isSome = true → r.running = running) := by
  intro env running r h
  unfold hyperv_start at h
  split at h
  · injection h with h1
    subst h1
    refine ⟨fun hr => ?_, fun _ => rfl⟩
    obtain ⟨hr1, hr2⟩ := hr
    rw [hr1] at hr2
    exact Bool.noConfusion hr2
  · split at h
    · rcases hv : set_vcpus_ram env with _ | e
      · rw [hv] at h
        rcases hs : set_state HYPERV_VM_STATE_ENABLED env.ret env.reads with _ | o
        · rw [hs] at h
          exact Option.noConfusion h
        · rw [hs] at h
          rcases o with e2 | u
          · injection h with h1
            subst h1
            refine ⟨fun hr => ?_, fun _ => rfl⟩
            obtain ⟨hr1, hr2⟩ := hr
            rw [hr1] at hr2
            exact Bool.noConfusion hr2
          · cases u
            injection h with h1
            subst h1
            exact ⟨fun _ => Or.inr rfl, fun hc => Bool.noConfusion hc⟩
      · rw [hv] at h
        injection h with h1
        subst h1
        refine ⟨fun hr => ?_, fun _ => rfl⟩
        obtain ⟨hr1, hr2⟩ := hr
        rw [hr1] at hr2
        exact Bool.noConfusion hr2
    · injection h with h1
      subst h1
      rename_i henb
      refine ⟨fun _ => Or.inl ?_, fun hc => Bool.noConfusion hc⟩
      by_cases hb : env.vmEnabled = true
      · exact hb
      · exact absurd (by simp [hb]) henb

/-- Witness for C6: a failed connect raises and leaves `running` false. -/
theorem hyperv_start_running_flag_witness :
    ((false = false ∧ (StartResult.mk (some ("connect failed")) false).running = true) →
      ((HyperVEnv.mk false false false 0 0 false 0 []).vmEnabled = true
        ∨ set_state HYPERV_VM_STATE_ENABLED (HyperVEnv.mk false false false 0 0 false 0 []).ret
            (HyperVEnv.mk false false false 0 0 false 0 []).reads = some (Except.ok ())))
    ∧ ((StartResult.mk (some ("connect failed")) false).err.isSome = true →
        (StartResult.mk (some ("connect failed")) false).running = false) :=
  hyperv_start_running_flag (HyperVEnv.mk false false false 0 0 false 0 []) false
    (StartResult.mk (some ("connect failed")) false) rfl

/-! ### Claim C1 -/

/-- Claim C1 counterexample: with an unprivileged process (euid 1) and the
`security.capability` attribute listed but unreadable (`os.getxattr`
raising), the claim requires the TAP construction to fail, but the code
catches the exception, logs it, returns from the check, and constructs the
TAP endpoint successfully. -/
theorem tap_gate_unreadable_passes :
    add_nio_tap 1 ["security.capability"] none "tap0" = Except.ok (NioEndpoint.tap "tap0")
    ∧ (1 ≠ 0 ∧ ¬ (none : Option Nat).isSome = true) :=
  ⟨rfl, by decide⟩

/-- Claim C1 (amended): with an unprivileged process, TAP construction fails
exactly when the `security.capability` attribute is absent from the backing
binary's extended attributes, or it is present and readable with the
CAP_NET_RAW bit (bit 13 of the second word) clear; it succeeds when the
process is privileged, when the bit is present and readable, and also when
the attribute is listed but cannot be read. -/
theorem add_nio_tap_gate_iff :
    ∀ (euid : Nat) (xattrNames : List String) (capsWord1 : Option Nat)
      (device : String),
      (∃ e, add_nio_tap euid xattrNames capsWord1 device = Except.error e)
        ↔ (euid ≠ 0
            ∧ ("security.capability" ∉ xattrNames
                ∨ ∃ w, capsWord1 = some w ∧ w &&& (1 <<< 13) = 0)) := by
  intro euid xattrNames capsWord1 device
  unfold add_nio_tap check_for_privileged_access
  by_cases h0 : euid = 0
  · simp [h0]
  · simp only [if_neg h0]
    by_cases hm : "security.capability" ∈ xattrNames
    · simp only [if_pos hm]
      cases capsWord1 with
      | none =>
        simp [hm]
      | some w =>
        have h13 : (1 <<< 13 : Nat) = 8192 := by decide
        by_cases hw : w &&& 8192 = 0
        · simp [h13, hw, h0, hm]
        · simp [h13, hw, h0, hm]
    · simp [hm, h0]

/-! ### Claim C9 -/

/-- Unfolding `getattr` over a cons cell. -/
theorem getattr_cons {V : Type} (a : String) (w : V) (l : List (String × V))
    (m : String) :
    getattr ((a, w) :: l) m = if a = m then some w else getattr l m := by
  unfold getattr
  by_cases h : a = m
  · rw [List.find?_cons_of_pos _ (by simp [h])]
    simp [h]
  · rw [List.find?_cons_of_neg _ (by simp [h])]
    simp [h]

/-- `setattr` changes exactly the attribute it names: reading it back gives
the new value when the attribute exists, and every other attribute is
unchanged. -/
theorem getattr_setattr {V : Type} (attrs : List (String × V)) (n m : String)
    (v : V) :
    getattr (setattr attrs n v) m
      = if m = n then (getattr attrs n).map (fun _ => v) else getattr attrs m := by
  induction attrs with
  | nil =>
    simp only [setattr, List.map_nil]
    split <;> rfl
  | cons q qs ih =>
    obtain ⟨a, w⟩ := q
    by_cases han : a = n <;> by_cases ham : a = m <;> by_cases hmn : m = n <;>
      simp_all [setattr, getattr_cons, List.map_cons, beq_iff_eq]

/-- Claim C9 (confirmed): over a request whose field names are distinct (a
JSON object), the update loop writes a settable field exactly when the
supplied value differs from the current one, the response lists exactly the
written fields, fields absent from the request keep their values, every
requested settable field ends at the supplied value, and unknown field names
are skipped without error. -/
theorem vpcs_update_fields_spec :
    ∀ {V : Type} [DecidableEq V] (req attrs : List (String × V)),
      (req.map Prod.fst).Nodup →
      (VPCS_update_fields req attrs).1
          = req.filter (fun q =>
              match getattr attrs q.1 with
              | some old => decide ¬ old = q.2
              | none => false)
      ∧ (∀ m, m ∉ req.map Prod.fst →
          getattr (VPCS_update_fields req attrs).2 m = getattr attrs m)
      ∧ (∀ n v, (n, v) ∈ req →
          getattr (VPCS_update_fields req attrs).2 n
            = (getattr attrs n).map (fun _ => v)) := by
  intro V instV req
  induction req with
  | nil =>
    intro attrs _
    exact ⟨rfl, fun m _ => rfl, fun n v hv => absurd hv (List.not_mem_nil _)⟩
  | cons q rest ih =>
    obtain ⟨n, v⟩ := q
    intro attrs hnd
    rw [List.map_cons, List.nodup_cons] at hnd
    obtain ⟨hnn0, hnd'⟩ := hnd
    have hnn : n ∉ rest.map Prod.fst := hnn0
    have hne : ∀ p ∈ rest, ¬ p.1 = n := by
      intro p hp hpn
      apply hnn
      rw [← hpn]
      exact List.mem_map_of_mem Prod.fst hp
    rcases hg : getattr attrs n with _ | old
    · have hstep : VPCS_update_fields ((n, v) :: rest) attrs
          = VPCS_update_fields rest attrs := by
        simp only [VPCS_update_fields, hg]
      obtain ⟨ih1, ih2, ih3⟩ := ih attrs hnd'
      refine ⟨?_, ?_, ?_⟩
      · rw [hstep, ih1, List.filter_cons]
        simp [hg]
      · intro m hm
        rw [List.map_cons, List.mem_cons] at hm
        push_neg at hm
        rw [hstep]
        exact ih2 m hm.2
      · intro n2 v2 hv
        rcases List.mem_cons.mp hv with heq | hmem
        · injection heq with h1 h2
          subst h1
          subst h2
          rw [hstep, ih2 n2 hnn, hg]
          rfl
        · rw [hstep]
          exact ih3 n2 v2 hmem
    · by_cases he : old = v
      · have hstep : VPCS_update_fields ((n, v) :: rest) attrs
            = VPCS_update_fields rest attrs := by
          simp only [VPCS_update_fields, hg, if_pos he]
        obtain ⟨ih1, ih2, ih3⟩ := ih attrs hnd'
        refine ⟨?_, ?_, ?_⟩
        · rw [hstep, ih1, List.filter_cons]
          simp [hg, he]
        · intro m hm
          rw [List.map_cons, List.mem_cons] at hm
          push_neg at hm
          rw [hstep]
          exact ih2 m hm.2
        · intro n2 v2 hv
          rcases List.mem_cons.mp hv with heq | hmem
          · injection heq with h1 h2
            subst h1
            subst h2
            rw [hstep, ih2 n2 hnn, hg, he]
            rfl
          · rw [hstep]
            exact ih3 n2 v2 hmem
      · have hstep : VPCS_update_fields ((n, v) :: rest) attrs
            = ((n, v) :: (VPCS_update_fields rest (setattr attrs n v)).1,
               (VPCS_update_fields rest (setattr attrs n v)).2) := by
          simp only [VPCS_update_fields, hg, if_neg he]
        obtain ⟨ih1, ih2, ih3⟩ := ih (setattr attrs n v) hnd'
        have hpred : ∀ p ∈ rest,
            getattr (setattr attrs n v) p.1 = getattr attrs p.1 := by
          intro p hp
          rw [getattr_setattr, if_neg (hne p hp)]
        have hfc : List.filter (fun q : String × V =>
              match getattr (setattr attrs n v) q.1 with
              | some old => decide ¬ old = q.2
              | none => false) rest
            = List.filter (fun q : String × V =>
              match getattr attrs q.1 with
              | some old => decide ¬ old = q.2
              | none => false) rest :=
          List.filter_congr (fun p hp => by rw [hpred p hp])
        refine ⟨?_, ?_, ?_⟩
        · rw [hstep]
          show (n, v) :: (VPCS_update_fields rest (setattr attrs n v)).1 = _
          rw [ih1, hfc, List.filter_cons]
          simp [hg, he]
        · intro m hm
          rw [List.map_cons, List.mem_cons] at hm
          push_neg at hm
          rw [hstep]
          show getattr (VPCS_update_fields rest (setattr attrs n v)).2 m = _
          rw [ih2 m hm.2, getattr_setattr, if_neg hm.1]
        · intro n2 v2 hv
          rcases List.mem_cons.mp hv with heq | hmem
          · injection heq with h1 h2
            subst h1
            subst h2
            rw [hstep]
            show getattr (VPCS_update_fields rest (setattr attrs n2 v2)).2 n2 = _
            rw [ih2 n2 hnn, getattr_setattr, if_pos rfl]
          · rw [hstep]
            show getattr (VPCS_update_fields rest (setattr attrs n v)).2 n2 = _
            rw [ih3 n2 v2 hmem, getattr_setattr, if_neg (hne (n2, v2) hmem)]

/-- Witness for C9 on a concrete instance: the field "a" differs and is
written and reported, "b" is equal and skipped, "c" is unknown and ignored. -/
theorem vpcs_update_fields_spec_witness :
    (VPCS_update_fields [("a", 1), ("b", 2), ("c", 3)] [("a", 0), ("b", 2)]).1
        = [("a", 1), ("b", 2), ("c", 3)].filter (fun q =>
            match getattr [("a", 0), ("b", 2)] q.1 with
            | some old => decide ¬ old = q.2
            | none => false)
    ∧ (∀ m, m ∉ [("a", 1), ("b", 2), ("c", 3)].map Prod.fst →
        getattr (VPCS_update_fields [("a", 1), ("b", 2), ("c", 3)]
            [("a", 0), ("b", 2)]).2 m = getattr [("a", 0), ("b", 2)] m)
    ∧ (∀ n v, (n, v) ∈ [("a", 1), ("b", 2), ("c", 3)] →
        getattr (VPCS_update_fields [("a", 1), ("b", 2), ("c", 3)]
            [("a", 0), ("b", 2)]).2 n
          = (getattr [("a", 0), ("b", 2)] n).map (fun _ => v)) :=
  vpcs_update_fields_spec [("a", 1), ("b", 2), ("c", 3)] [("a", 0), ("b", 2)]
    (by decide)

/-! ### Claim C10 -/

/-- Claim C10 (confirmed): a `VPCS.settings` request carrying neither a
`working_dir` key nor a `project_name` key makes the handler raise an
uncaught `KeyError` while computing the new working directory, for every
module state and filesystem environment — the request is not treated as a
partial update leaving the working directory unchanged. -/
theorem settings_missing_keys_keyerror :
    ∀ (env : SettingsEnv) (req : List (String × RVal)) (st : VPCSState),
      lookupR req "working_dir" = none →
      lookupR req "project_name" = none →
      VPCS_settings env req st = SettingsOutcome.keyError ("project_name") := by
  intro env req st h1 h2
  unfold VPCS_settings
  rw [h1, h2]

/-- Witness for C10: a request that only updates the console port range ends
in the `KeyError` on `project_name`. -/
theorem settings_missing_keys_keyerror_witness :
    VPCS_settings ⟨true, true⟩ [("console_start_port_range", RVal.num 4001)] exState
      = SettingsOutcome.keyError ("project_name") :=
  settings_missing_keys_keyerror ⟨true, true⟩
    [("console_start_port_range", RVal.num 4001)] exState rfl rfl

end GNS3